import Mathlib

set_option autoImplicit false
set_option maxHeartbeats 1000000

/- Shallow embedding of the sqlite3-util-go example program
(src/_example/trysqlite3trace1/main.go) together with the
sqlite3tracemask helper package it uses, followed by theorems
that settle the specified properties against this embedding. -/

/-! ### Package sqlite3tracemask -/

/-- Trace mask configuration: four independent boolean category flags.
Mirrors type Config of package sqlite3tracemask. -/
structure Config where
  Stmt : Bool
  Profile : Bool
  Row : Bool
  Close : Bool
  deriving DecidableEq, Repr

/-- Trace event bit for statement start; value of the external driver
constant sqlite3.TraceStmt, i.e. SQLITE_TRACE_STMT = 0x01. -/
def TraceStmt : Nat := 0x01

/-- Trace event bit for statement profiling; value of the external driver
constant sqlite3.TraceProfile, i.e. SQLITE_TRACE_PROFILE = 0x02. -/
def TraceProfile : Nat := 0x02

/-- Trace event bit for a produced row; value of the external driver
constant sqlite3.TraceRow, i.e. SQLITE_TRACE_ROW = 0x04. -/
def TraceRow : Nat := 0x04

/-- Trace event bit for connection close; value of the external driver
constant sqlite3.TraceClose, i.e. SQLITE_TRACE_CLOSE = 0x08. -/
def TraceClose : Nat := 0x08

/-- The zero value of Config in Go: all four flags false. -/
def zeroConfig : Config := ⟨false, false, false, false⟩

/-- One step of the switch statement inside DecodeStringArg: the flag
matching a recognized letter is set, any other character leaves the
configuration unchanged. -/
def decodeChar (d : Config) (c : Char) : Config :=
  if c = 's' then { d with Stmt := true }
  else if c = 'p' then { d with Profile := true }
  else if c = 'r' then { d with Row := true }
  else if c = 'c' then { d with Close := true }
  else d

/-- DecodeStringArg from package sqlite3tracemask: scan the characters of
the string in order, enabling the flag for each recognized letter. -/
def DecodeStringArg (dest : Config) (s : String) : Config :=
  s.data.foldl decodeChar dest

/-- GenerateStringArg from package sqlite3tracemask: the short string
form, one letter per enabled flag, joined in the fixed order s, p, r, c. -/
def GenerateStringArg (c : Config) : String :=
  String.join ((if c.Stmt then ["s"] else []) ++
    (if c.Profile then ["p"] else []) ++
    (if c.Row then ["r"] else []) ++
    (if c.Close then ["c"] else []))

/-- EventMask from package sqlite3tracemask: bitwise union of the driver
constants for the enabled flags, accumulated in the fixed order. -/
def EventMask (c : Config) : Nat :=
  let m0 : Nat := 0
  let m1 := if c.Stmt then m0 ||| TraceStmt else m0
  let m2 := if c.Profile then m1 ||| TraceProfile else m1
  let m3 := if c.Row then m2 ||| TraceRow else m2
  if c.Close then m3 ||| TraceClose else m3

/-- Boolean membership of a character in a list of characters; used to
state which recognized letters occur in a decoded string. -/
def hasChar : List Char → Char → Bool
  | [], _ => false
  | c :: cs, x => (c == x) || hasChar cs x

/-! ### The transaction wrapper txWrap -/

/-- Outcome of the caller-supplied unit of work txFunc: it either returns
normally or terminates abnormally carrying a panic value of type π. -/
inductive TxFuncOutcome (π : Type) where
  | normal : TxFuncOutcome π
  | panicked : π → TxFuncOutcome π

/-- What one invocation of txWrap delivers to its caller: a normal return
carrying an optional error value, or propagation of a panic value. -/
inductive TxWrapResult (ε π : Type) where
  | returned : Option ε → TxWrapResult ε π
  | panicked : π → TxWrapResult ε π

/-- The results the database layer would give to each operation txWrap
may attempt during one invocation; none means the operation succeeds. -/
structure TxEnv (ε : Type) where
  beginErr : Option ε
  commitErr : Option ε
  rollbackErr : Option ε

/-- Observable trace of one txWrap invocation: what it delivers to the
caller and how many times Commit and Rollback were attempted on the
transaction handle. -/
structure TxWrapTrace (ε π : Type) where
  result : TxWrapResult ε π
  commits : Nat
  rollbacks : Nat

/-- txWrap from main.go. Control flow of the source: if Begin fails its
error is returned at once and no transaction exists. Otherwise the
deferred function runs after txFunc: if the panicked flag is still true
it calls tx.Rollback, discarding the rollback error, and the panic
continues to propagate; on a normal return it either calls tx.Rollback
when the global rollbackAlways switch is set, again discarding the
rollback error and leaving the named return err at nil, or assigns
err = tx.Commit. -/
def txWrap {ε π : Type} (env : TxEnv ε) (txFunc : TxFuncOutcome π)
    (rollbackAlways : Bool) : TxWrapTrace ε π :=
  match env.beginErr with
  | some txErr => { result := .returned (some txErr), commits := 0, rollbacks := 0 }
  | none =>
    match txFunc with
    | .panicked p => { result := .panicked p, commits := 0, rollbacks := 1 }
    | .normal =>
      if rollbackAlways then
        { result := .returned none, commits := 0, rollbacks := 1 }
      else
        { result := .returned env.commitErr, commits := 1, rollbacks := 0 }

/-! ### The trace callback formatter -/

/-- The error description attached to a trace event by the external
driver: basic and extended SQLite result codes. Mirrors the DBError
field of sqlite3.TraceInfo as used by the program. -/
structure SQLiteError where
  Code : Int
  ExtendedCode : Int

/-- A trace event as delivered to the callback. Mirrors sqlite3.TraceInfo
in the fields the callback reads. -/
structure TraceInfo where
  EventCode : Nat
  ConnHandle : Nat
  StmtHandle : Nat
  StmtOrTrigger : String
  ExpandedSQL : String
  RunTimeNanosec : Nat
  DBError : SQLiteError

/-- Rendering of the DBError struct as produced by the Go verb used in
traceCallback, fmt.Sprintf with %#v: the struct name followed by its
fields. -/
def goReprError (e : SQLiteError) : String :=
  "sqlite3.Error\x7bCode:" ++ toString e.Code ++
    ", ExtendedCode:" ++ toString e.ExtendedCode ++ "\x7d"

/-- The dbErrText local of traceCallback: a database error description
when either result code is nonzero, otherwise a bare period. -/
def dbErrText (info : TraceInfo) : String :=
  if info.DBError.Code ≠ 0 ∨ info.DBError.ExtendedCode ≠ 0 then
    "; DB error: " ++ goReprError info.DBError
  else "."

/-- The expandedText local of traceCallback: empty when no expansion is
available, a fixed note when the expansion equals the raw statement
text, otherwise the quoted expanded SQL in curly braces. -/
def expandedText (info : TraceInfo) : String :=
  if info.ExpandedSQL ≠ "" then
    if info.ExpandedSQL = info.StmtOrTrigger then " no change when expanded"
    else " expanded \x7b" ++ String.quote info.ExpandedSQL ++ "\x7d"
  else ""

/-- Hexadecimal rendering of a number, as the %x verb prints it. -/
def hexStr (n : Nat) : String := String.mk (Nat.toDigits 16 n)

/-- The fixed-format front of the trace line: event code, connection and
statement handles in hex, then the quoted raw statement text in curly
braces. -/
def tracePrefix (info : TraceInfo) : String :=
  "Trace: ev 0x" ++ hexStr info.EventCode ++
    ", conn 0x" ++ hexStr info.ConnHandle ++
    ", stmt 0x" ++ hexStr info.StmtHandle ++
    " \x7b" ++ String.quote info.StmtOrTrigger ++ "\x7d"

/-- The full line printed by traceCallback for one trace event, assembled
exactly as the Printf call in the source assembles it. -/
def traceLine (info : TraceInfo) : String :=
  tracePrefix info ++ expandedText info ++
    "; " ++ toString info.RunTimeNanosec ++ " ns" ++ dbErrText info ++ "\n"

/-- traceCallback from main.go: prints the trace line and returns 0. -/
def traceCallback (info : TraceInfo) : String × Int :=
  (traceLine info, 0)

/-! ### Startup logic of main -/

/-- Observable startup behavior of main after flag parsing: whether the
program went on to open a database and which exit code it chose. -/
structure StartupTrace where
  openAttempted : Bool
  exitCode : Nat

/-- The filename check at the end of main together with the first action
of dbMain: with an empty db flag, main prints the usage hint and exits
with code 3 before any database is opened; otherwise it calls dbMain,
whose first step is to open the database, and exits with the code dbMain
returns (parametrized here, since it depends on the database). -/
def mainStartup (dbFilename : String) (dbMainExit : Nat) : StartupTrace :=
  if dbFilename = "" then { openAttempted := false, exitCode := 3 }
  else { openAttempted := true, exitCode := dbMainExit }

/-! ### Helper lemmas -/

/-- Folding the decode step over a character list sets exactly the flags
whose letters occur in the list, leaving already-set flags set. -/
theorem foldl_decodeChar (l : List Char) (d : Config) :
    l.foldl decodeChar d =
      ⟨d.Stmt || hasChar l 's', d.Profile || hasChar l 'p',
       d.Row || hasChar l 'r', d.Close || hasChar l 'c'⟩ := by
  induction l generalizing d with
  | nil => simp [hasChar]
  | cons c cs ih =>
    rw [List.foldl_cons, ih]
    by_cases hs : c = 's'
    · subst hs
      simp [decodeChar, hasChar]
    · by_cases hp : c = 'p'
      · subst hp
        simp [decodeChar, hasChar]
      · by_cases hr : c = 'r'
        · subst hr
          simp [decodeChar, hasChar]
        · by_cases hc : c = 'c'
          · subst hc
            simp [decodeChar, hasChar]
          · have hs' : (c == 's') = false := by simp [hs]
            have hp' : (c == 'p') = false := by simp [hp]
            have hr' : (c == 'r') = false := by simp [hr]
            have hc' : (c == 'c') = false := by simp [hc]
            simp [decodeChar, hasChar, hs, hp, hr, hc, hs', hp', hr', hc']

/-- The event mask is the union of one fixed bit per enabled flag. -/
theorem eventMask_mk (a b c d : Bool) :
    EventMask ⟨a, b, c, d⟩ =
      ((if a then TraceStmt else 0) ||| (if b then TraceProfile else 0) |||
       (if c then TraceRow else 0) ||| (if d then TraceClose else 0)) := by
  cases a <;> cases b <;> cases c <;> cases d <;> rfl

/-- The event mask of a flag-wise union of configurations is the bitwise
union of the two event masks. -/
theorem eventMask_or (a₁ b₁ c₁ d₁ a₂ b₂ c₂ d₂ : Bool) :
    EventMask ⟨a₁ || a₂, b₁ || b₂, c₁ || c₂, d₁ || d₂⟩ =
      (EventMask ⟨a₁, b₁, c₁, d₁⟩ ||| EventMask ⟨a₂, b₂, c₂, d₂⟩) := by
  revert a₁ b₁ c₁ d₁ a₂ b₂ c₂ d₂
  decide

/-! ### Claim theorems for the mask configuration -/

/-- Claim C5: for every combination of the four boolean category flags,
encoding the configuration obtained by decoding the short-string
rendering of the configuration yields the same numeric bitmask as
encoding the original configuration. -/
theorem mask_roundtrip_through_short_string (s p r c : Bool) :
    EventMask (DecodeStringArg zeroConfig (GenerateStringArg ⟨s, p, r, c⟩)) =
      EventMask ⟨s, p, r, c⟩ := by
  cases s <;> cases p <;> cases r <;> cases c <;> decide

/-- Claim C6: DecodeStringArg is total on strings; characters outside
the set s, p, r, c are ignored, and starting from the all-false
configuration the resulting configuration, hence the resulting mask,
reflects exactly the recognized letters present in the string. -/
theorem decode_ignores_unrecognized (s : String) :
    DecodeStringArg zeroConfig s =
      ⟨hasChar s.data 's', hasChar s.data 'p',
       hasChar s.data 'r', hasChar s.data 'c'⟩ ∧
    EventMask (DecodeStringArg zeroConfig s) =
      ((if hasChar s.data 's' then TraceStmt else 0) |||
       (if hasChar s.data 'p' then TraceProfile else 0) |||
       (if hasChar s.data 'r' then TraceRow else 0) |||
       (if hasChar s.data 'c' then TraceClose else 0)) := by
  have hchar : DecodeStringArg zeroConfig s =
      ⟨hasChar s.data 's', hasChar s.data 'p',
       hasChar s.data 'r', hasChar s.data 'c'⟩ := by
    rw [DecodeStringArg, foldl_decodeChar]
    simp [zeroConfig]
  exact ⟨hchar, by rw [hchar, eventMask_mk]⟩

/-- Claim C7: decoding the string form into an already partly-set
configuration only adds flags, so the effective mask is the bitwise
union of the mask given by the prior configuration and the mask the
string alone would specify. -/
theorem decode_union_of_forms (d : Config) (s : String) :
    EventMask (DecodeStringArg d s) =
      (EventMask d ||| EventMask (DecodeStringArg zeroConfig s)) := by
  rw [DecodeStringArg, DecodeStringArg, foldl_decodeChar, foldl_decodeChar]
  cases d with
  | mk a b c d =>
    simp only [zeroConfig, Bool.false_or]
    exact eventMask_or a b c d _ _ _ _

/-! ### Claim theorems for the transaction wrapper -/

/-- Claim C1: once the transaction has been begun, an invocation of
txWrap attempts exactly one of Commit or Rollback, never both and never
neither, whether txFunc returns normally, txFunc terminates abnormally,
or the global rollbackAlways switch is set. A failed Begin returns its
error before a transaction exists, which the specification describes as
terminal failure before any state is entered. -/
theorem txWrap_exactly_one_finalizer {ε π : Type} (env : TxEnv ε)
    (txFunc : TxFuncOutcome π) (rollbackAlways : Bool)
    (h : env.beginErr = none) :
    (txWrap env txFunc rollbackAlways).commits +
      (txWrap env txFunc rollbackAlways).rollbacks = 1 := by
  obtain ⟨b, ce, re⟩ := env
  have hb : b = none := h
  subst hb
  cases txFunc <;> cases rollbackAlways <;> rfl

/-- Witness for claim C1 at a concrete invocation. -/
theorem txWrap_exactly_one_finalizer_witness :
    (txWrap (ε := Unit) (π := Unit) ⟨none, none, none⟩ .normal false).commits +
      (txWrap (ε := Unit) (π := Unit) ⟨none, none, none⟩ .normal false).rollbacks = 1 :=
  txWrap_exactly_one_finalizer ⟨none, none, none⟩ .normal false rfl

/-- Claim C2: when txFunc returns normally and the rollbackAlways switch
is false, txWrap attempts Commit exactly once, attempts no Rollback, and
returns the result of the commit attempt: nil when commit succeeds, and
the commit error itself when commit fails. -/
theorem txWrap_commit_on_normal_return {ε π : Type} (env : TxEnv ε)
    (h : env.beginErr = none) :
    txWrap (π := π) env .normal false =
      { result := .returned env.commitErr, commits := 1, rollbacks := 0 } := by
  obtain ⟨b, ce, re⟩ := env
  have hb : b = none := h
  subst hb
  rfl

/-- Witness for claim C2 at a concrete invocation with a failing commit. -/
theorem txWrap_commit_on_normal_return_witness :
    txWrap (ε := Unit) (π := Unit) ⟨none, some (), none⟩ .normal false =
      { result := .returned (some ()), commits := 1, rollbacks := 0 } :=
  txWrap_commit_on_normal_return ⟨none, some (), none⟩ rfl

/-- Claim C3: when the rollbackAlways switch is true and txFunc returns
normally, txWrap attempts Rollback instead of Commit, so the transaction
is rolled back even though the unit of work reported no error. -/
theorem txWrap_rollback_when_switch_set {ε π : Type} (env : TxEnv ε)
    (h : env.beginErr = none) :
    txWrap (π := π) env .normal true =
      { result := .returned none, commits := 0, rollbacks := 1 } := by
  obtain ⟨b, ce, re⟩ := env
  have hb : b = none := h
  subst hb
  rfl

/-- Witness for claim C3 at a concrete invocation. -/
theorem txWrap_rollback_when_switch_set_witness :
    txWrap (ε := Unit) (π := Unit) ⟨none, none, none⟩ .normal true =
      { result := .returned none, commits := 0, rollbacks := 1 } :=
  txWrap_rollback_when_switch_set ⟨none, none, none⟩ rfl

/-- Claim C4: when txFunc terminates abnormally with panic value p,
txWrap attempts Rollback, no Commit, and the very same panic value p
propagates to the caller, not a wrapped or replaced error value. -/
theorem txWrap_panic_propagates {ε π : Type} (env : TxEnv ε) (p : π)
    (rollbackAlways : Bool) (h : env.beginErr = none) :
    txWrap env (.panicked p) rollbackAlways =
      { result := .panicked p, commits := 0, rollbacks := 1 } := by
  obtain ⟨b, ce, re⟩ := env
  have hb : b = none := h
  subst hb
  rfl

/-- Witness for claim C4 at a concrete invocation with panic value 42. -/
theorem txWrap_panic_propagates_witness :
    txWrap (ε := Unit) (π := Nat) ⟨none, none, none⟩ (.panicked 42) true =
      { result := .panicked 42, commits := 0, rollbacks := 1 } :=
  txWrap_panic_propagates ⟨none, none, none⟩ 42 true rfl

/-- Claim C10: with the rollbackAlways switch set and txFunc returning
normally, txWrap returns a nil error although it rolled the transaction
back; on every rollback branch the error of the Rollback call itself is
discarded, so the trace of an invocation does not depend on the rollback
result at all; hence the return value of a forced rollback equals the
return value of a successful commit and the caller cannot tell them
apart. -/
theorem txWrap_rollback_errors_discarded {ε π : Type} (env : TxEnv ε)
    (h : env.beginErr = none) :
    (txWrap (π := π) env .normal true).result = .returned none ∧
    (∀ (txFunc : TxFuncOutcome π) (ra : Bool) (re re' : Option ε),
      txWrap { env with rollbackErr := re } txFunc ra =
        txWrap { env with rollbackErr := re' } txFunc ra) ∧
    (txWrap (π := π) env .normal true).result =
      (txWrap (π := π) { env with commitErr := none } .normal false).result := by
  obtain ⟨b, ce, re⟩ := env
  have hb : b = none := h
  subst hb
  refine ⟨rfl, ?_, rfl⟩
  intro txFunc ra re re'
  cases txFunc <;> cases ra <;> rfl

/-- Witness for claim C10 at a concrete invocation, the inner universal
statement instantiated at a panicking unit of work with a failing
rollback. -/
theorem txWrap_rollback_errors_discarded_witness :
    (txWrap (ε := Unit) (π := Unit) ⟨none, none, some ()⟩ .normal true).result =
        .returned none ∧
    txWrap (ε := Unit) (π := Unit) ⟨none, none, some ()⟩ (.panicked ()) true =
      txWrap (ε := Unit) (π := Unit) ⟨none, none, none⟩ (.panicked ()) true ∧
    (txWrap (ε := Unit) (π := Unit) ⟨none, none, some ()⟩ .normal true).result =
      (txWrap (ε := Unit) (π := Unit) ⟨none, none, some ()⟩ .normal false).result :=
  ⟨(txWrap_rollback_errors_discarded ⟨none, none, some ()⟩ rfl).1,
   (txWrap_rollback_errors_discarded ⟨none, none, some ()⟩ rfl).2.1 (.panicked ()) true (some ()) none,
   (txWrap_rollback_errors_discarded ⟨none, none, some ()⟩ rfl).2.2⟩

/-! ### Claim theorems for the trace callback and startup -/

/-- A string whose length is positive is not the empty string. -/
theorem ne_empty_of_length_pos (s : String) (h : 0 < s.length) : s ≠ "" := by
  intro he
  rw [he] at h
  simp at h

/-- Claim C8: the trace line is assembled from the fixed front, the
expanded-text annotation and the database-error annotation; the
expanded-text annotation is empty exactly when no expansion is
available, is the fixed no-change note when the expansion equals the raw
statement text, and shows the quoted expanded SQL when it differs; the
database-error annotation differs from the bare period exactly when the
event carries a nonzero basic or extended error code, in which case it
is the error description. -/
theorem traceCallback_line_annotations (info : TraceInfo) :
    traceLine info =
      tracePrefix info ++ expandedText info ++ "; " ++
        toString info.RunTimeNanosec ++ " ns" ++ dbErrText info ++ "\n" ∧
    (expandedText info = "" ↔ info.ExpandedSQL = "") ∧
    (info.ExpandedSQL ≠ "" → info.ExpandedSQL = info.StmtOrTrigger →
      expandedText info = " no change when expanded") ∧
    (info.ExpandedSQL ≠ "" → info.ExpandedSQL ≠ info.StmtOrTrigger →
      expandedText info =
        " expanded \x7b" ++ String.quote info.ExpandedSQL ++ "\x7d") ∧
    (dbErrText info ≠ "." ↔
      (info.DBError.Code ≠ 0 ∨ info.DBError.ExtendedCode ≠ 0)) ∧
    ((info.DBError.Code ≠ 0 ∨ info.DBError.ExtendedCode ≠ 0) →
      dbErrText info = "; DB error: " ++ goReprError info.DBError) := by
  refine ⟨rfl, ?_, ?_, ?_, ?_, ?_⟩
  · by_cases he : info.ExpandedSQL = ""
    · simp [expandedText, he]
    · by_cases ht : info.ExpandedSQL = info.StmtOrTrigger
      · simp only [expandedText, he, ht]
        simp
      · have hne : (" expanded \x7b" ++ String.quote info.ExpandedSQL ++ "\x7d") ≠ "" := by
          apply ne_empty_of_length_pos
          rw [String.length_append, String.length_append]
          have h11 : (" expanded \x7b").length = 11 := by decide
          omega
        simp [expandedText, he, ht, hne]
  · intro he ht
    have he' : info.StmtOrTrigger ≠ "" := ht ▸ he
    simp [expandedText, he, ht, he']
  · intro he ht
    simp [expandedText, he, ht]
  · by_cases hz : info.DBError.Code ≠ 0 ∨ info.DBError.ExtendedCode ≠ 0
    · have hne : ("; DB error: " ++ goReprError info.DBError) ≠ "." := by
        intro heq
        have hl := congrArg String.length heq
        have h12 : ("; DB error: ").length = 12 := by decide
        have h1 : (".").length = 1 := by decide
        rw [String.length_append, h12, h1] at hl
        omega
      simp [dbErrText, hz, hne]
    · simp [dbErrText, hz]
  · intro hz
    simp [dbErrText, hz]

/-- Claim C9: with the database filename flag left empty, main prints
the usage hint and exits with the distinguished code 3, and the database
open attempt inside dbMain is never reached, whatever exit code a run of
dbMain would have produced. -/
theorem missing_filename_exits_without_open (dbMainExit : Nat) :
    mainStartup "" dbMainExit = { openAttempted := false, exitCode := 3 } := by
  simp [mainStartup]
